import Mathlib

/-!
Verification of the SQL intent-executor pipeline (`app/` sources):
intent resolution (`intent_matcher.match_intent`), parameter extraction
(inline in `main.handle_query`), templated execution
(`query_executor.execute_query`) and the session context store
(`memory_manager.update_context` / `get_context`).

Python strings are embedded as lists of characters; Python's `a in b`
on strings is substring containment, embedded as `List.IsInfix`
(`<:+:`).  Python dicts that are iterated in insertion order
(`queries.json`) are embedded as association lists in load order.
-/

deriving instance DecidableEq for Except

/-- A Python string, as a list of characters. -/
abbrev Str := List Char

/-- Python `str.lower()` (ASCII case folding suffices for the catalog data). -/
def pyLower (s : Str) : Str := s.map Char.toLower

/-- One entry of `app/queries/queries.json`: the `sql` field is required,
the `keywords` field may be absent (read via `details.get("keywords", [])`). -/
structure QueryDef where
  sql : Str
  keywords : Option (List Str)
deriving DecidableEq

/-- The parsed `queries.json` catalog, in load (insertion) order. -/
abbrev Catalog := List (Str × QueryDef)

/-- The body of the loop in `match_intent`:
`all(keyword in query_text_lower for keyword in details.get("keywords", []))`. -/
def ruleMatches (query_text_lower : Str) (details : QueryDef) : Bool :=
  (details.keywords.getD []).all (fun keyword => decide (keyword <:+: query_text_lower))

/-- `app/intent_matcher.py`, `match_intent`: lower-case the query text, return
the name of the first catalog entry all of whose keywords occur as substrings
of the lowered text, else `None`.  (The catalog is the parsed `queries.json`,
passed here as data.) -/
def match_intent (query_text : Str) (queries : Catalog) : Option Str :=
  let query_text_lower := pyLower query_text
  (queries.find? (fun nd => ruleMatches query_text_lower nd.2)).map (fun nd => nd.1)

/-- A parameter set: Python dict from parameter name to an integer value
(the only value the baseline extractor ever produces is the int 2023). -/
abbrev Params := List (Str × Int)

/-- `app/main.py` line 29, the inline parameter extraction:
`params = {"year": 2023} if "2023" in user_query else {}`.
Note the containment test runs on the original, non-lowered query text. -/
def extract_params (user_query : Str) : Params :=
  if ("2023".data) <:+: user_query then [(("year".data), (2023 : Int))] else []

/-- One session's entry in `memory_manager._memory_store`.  The inner dict
only ever receives the keys `last_query` and `params`, both set on every
`update_context` call, so it is embedded as a two-field record. -/
structure SessionContext where
  last_query : Str
  params : Params
deriving DecidableEq

/-- The in-memory session store `_memory_store`, as a map from session id. -/
abbrev MemoryStore := Str → Option SessionContext

/-- The store at process start: empty. -/
def emptyStore : MemoryStore := fun _ => none

/-- `app/memory_manager.py`, `update_context`: create the entry if absent,
then set both `last_query` and `params`; the net effect is an unconditional
overwrite of that session's entry. -/
def update_context (store : MemoryStore) (session_id : Str) (last_query : Str)
    (params : Params) : MemoryStore :=
  fun s => if s = session_id then some ⟨last_query, params⟩ else store s

/-- `app/memory_manager.py`, `get_context`: `_memory_store.get(session_id)`. -/
def get_context (store : MemoryStore) (session_id : Str) : Option SessionContext :=
  store session_id

/-- Exceptions the Oracle driver can raise from `cursor.execute`.
`missingParameter` is the binding error for an unbound named placeholder
(ORA-01008), the spec's `MissingParameter`; `databaseError` is any other
`oracledb.DatabaseError` raised mid-statement. -/
inductive ExecErr where
  | databaseError
  | missingParameter
deriving DecidableEq

/-- Exceptions `execute_query` can raise: `FileNotFoundError` from
`load_env` when `.env.<env>` is absent, `ValueError` when the query name is
not in `queries.json`, or a driver error (from `connect` or `execute`). -/
inductive QErr where
  | fileNotFound
  | valueError
  | dbError (e : ExecErr)
deriving DecidableEq

/-- Resource / call events of one `execute_query` run, in order:
`connAttempt` (the `oracledb.connect` call is made), `connOpen` (it returned
a live connection), `cursorOpen` (`conn.cursor()`), `execAttempt`
(`cursor.execute` is called), `execOk` (it returned), `cursorClose`
(`cursor.close()`), `connClose` (`conn.close()`). -/
inductive Event where
  | connAttempt
  | connOpen
  | cursorOpen
  | execAttempt
  | execOk
  | cursorClose
  | connClose
deriving DecidableEq

/-- One result row: `dict(zip(cols, row))`, kept as the zipped pairs. -/
abbrev Row := List (Str × Int)

/-- The behaviour of the external Oracle database for one call:
whether `oracledb.connect` succeeds, and what `cursor.execute` +
`cursor.description` + `cursor.fetchall()` yield for a given SQL text and
parameter set (column names and rows, or a raised error). -/
structure Driver where
  connectOk : Bool
  run : Str → Params → Except ExecErr (List Str × List (List Int))

/-- The `queries.json` lookup done inside `execute_query`
(`if query_name not in queries` / `queries[query_name]["sql"]`). -/
def lookupQuery (queries : Catalog) (query_name : Str) : Option QueryDef :=
  (queries.find? (fun e => decide (e.1 = query_name))).map (fun e => e.2)

/-- `app/query_executor.py`, `execute_query`, over an abstract driver.
`envOk` embeds `os.path.exists(f".env.{env_name.lower()}")` from
`config.load_env`.  The function returns the raised exception or the
materialized rows, together with the trace of connection/cursor events.
The `try/except` in the source only logs and re-raises, so every
exception propagates; crucially, the source closes the cursor and the
connection only on the straight-line success path (no `finally`). -/
def execute_query (drv : Driver) (envOk : Str → Bool) (queries : Catalog)
    (env_name query_name : Str) (params : Params) :
    Except QErr (List Row) × List Event :=
  if envOk (pyLower env_name) then
    match lookupQuery queries query_name with
    | none => (Except.error QErr.valueError, [])
    | some qd =>
      if drv.connectOk then
        match drv.run qd.sql params with
        | Except.error e =>
          (Except.error (QErr.dbError e),
           [Event.connAttempt, Event.connOpen, Event.cursorOpen, Event.execAttempt])
        | Except.ok (cols, rows) =>
          (Except.ok (rows.map (fun r => cols.zip r)),
           [Event.connAttempt, Event.connOpen, Event.cursorOpen, Event.execAttempt,
            Event.execOk, Event.cursorClose, Event.connClose])
      else (Except.error (QErr.dbError ExecErr.databaseError), [Event.connAttempt])
  else (Except.error QErr.fileNotFound, [])

/-- Outcomes of `handle_query` that are not a normal response:
`http400` is the `HTTPException(status_code=400)` for no matching query;
`typeErr` is the `AttributeError` from `None.lower()` when the payload has
no `query_text`; `unhandled e` is an exception propagating out of
`execute_query` (turned into a 500 by the global exception handler). -/
inductive HandleErr where
  | http400
  | typeErr
  | unhandled (e : QErr)
deriving DecidableEq

/-- The JSON body `handle_query` returns on success. -/
structure Resp where
  env : Str
  matched_query : Str
  params : Params
  records : Nat
  results : List Row
deriving DecidableEq

/-- A `/query` request payload: the three fields `handle_query` reads,
each absent (`none`) when the key is missing from the dict. -/
structure Payload where
  query_text : Option Str
  env : Option Str
  user_id : Option Str

/-- The store-independent part of `app/main.py`, `handle_query`:
read the payload fields with their defaults, resolve the intent,
extract parameters, execute.  Split out from the store update below
(which the source performs as its last effect) so that the response is
manifestly independent of the session store. -/
def resolve_and_run (drv : Driver) (envOk : Str → Bool) (queries : Catalog)
    (payload : Payload) : Except HandleErr Resp × List Event :=
  match payload.query_text with
  | none => (Except.error HandleErr.typeErr, [])
  | some user_query =>
    let user_env := payload.env.getD ("DEV".data)
    match match_intent user_query queries with
    | none => (Except.error HandleErr.http400, [])
    | some query_name =>
      let params := extract_params user_query
      match execute_query drv envOk queries user_env query_name params with
      | (Except.error e, tr) => (Except.error (HandleErr.unhandled e), tr)
      | (Except.ok results, tr) =>
        (Except.ok { env := user_env, matched_query := query_name, params := params,
                     records := results.length, results := results }, tr)

/-- The session key `handle_query` uses: `payload.get("user_id", "default")`. -/
def sessionKey (payload : Payload) : Str := payload.user_id.getD ("default".data)

/-- `app/main.py`, `handle_query`: run the pipeline; on success call
`update_context(user_id, query_name, params)` and return the response;
on any failure the store is left untouched (the exception propagates before
the `update_context` line is reached). -/
def handle_query (drv : Driver) (envOk : Str → Bool) (queries : Catalog)
    (payload : Payload) (store : MemoryStore) :
    Except HandleErr Resp × MemoryStore × List Event :=
  match resolve_and_run drv envOk queries payload with
  | (Except.error e, tr) => (Except.error e, store, tr)
  | (Except.ok r, tr) =>
    (Except.ok r, update_context store (sessionKey payload) r.matched_query r.params, tr)

/-- A sequence of `/query` requests processed in order, threading the store. -/
def runRequests (drv : Driver) (envOk : Str → Bool) (queries : Catalog) :
    List Payload → MemoryStore → MemoryStore
  | [], store => store
  | p :: rest, store =>
    runRequests drv envOk queries rest (handle_query drv envOk queries p store).2.1

/-- A character that may continue an Oracle named bind placeholder. -/
def bindNameChar (c : Char) : Bool := c.isAlphanum || c = '_'

/-- Scanner state machine collecting the named placeholders (`:name`) of a
SQL text; the first argument holds the (reversed) name being collected. -/
def scanBinds : Option Str → Str → List Str
  | none, [] => []
  | some acc, [] => if acc = [] then [] else [acc.reverse]
  | none, c :: rest => scanBinds (if c = ':' then some [] else none) rest
  | some acc, c :: rest =>
    if bindNameChar c then scanBinds (some (c :: acc)) rest
    else (if acc = [] then [] else [acc.reverse]) ++
      scanBinds (if c = ':' then some [] else none) rest

/-- Modelled from the spec: the named bind placeholders a SQL text
references.  The parsing of `:name` markers is done by the external Oracle
driver (`oracledb`), which is not part of this repository's sources; the
spec speaks of "any parameter referenced by the SQL text". -/
def placeholdersOf (sql : Str) : List Str := scanBinds none sql

/-- Modelled from the spec: the binding step of the external Oracle driver
inside `cursor.execute`, which is not part of this repository's sources.
Per the spec, "any parameter referenced by the SQL text but absent from
`params` is a `MissingParameter` failure (binding error), not silently
treated as null"; when every referenced placeholder is bound, the statement
runs and yields whatever the database returns (`runOk`). -/
def strictDriver (runOk : Str → Params → List Str × List (List Int)) : Driver where
  connectOk := true
  run := fun sql params =>
    if (placeholdersOf sql).all (fun ph => params.any (fun kv => decide (kv.1 = ph))) then
      Except.ok (runOk sql params)
    else Except.error ExecErr.missingParameter

/-- The spec's concrete catalog entry:
`sql = "SELECT * FROM SALES WHERE YEAR = :year"`, keywords `sales`, `2023`. -/
def sales2023Def : QueryDef where
  sql := "SELECT * FROM SALES WHERE YEAR = :year".data
  keywords := some [("sales".data), ("2023".data)]

/-- The spec's concrete one-template catalog, under the name `sales_2023`. -/
def cat0 : Catalog := [(("sales_2023".data), sales2023Def)]

/-- A fixture environment check: only `.env.dev` exists. -/
def envOkDev : Str → Bool := fun s => decide (s = ("dev".data))

/-- A fixture backend on which everything succeeds, returning two rows. -/
def drvOk : Driver where
  connectOk := true
  run := fun _ _ => Except.ok ([("YEAR".data)], [[2023], [2023]])

/-- A fault-injecting fixture backend: `connect` succeeds and
`cursor.execute` raises mid-statement. -/
def drvExecFail : Driver where
  connectOk := true
  run := fun _ _ => Except.error ExecErr.databaseError

/-- A fixture request: the spec's scenario query, no `env`, no `user_id`. -/
def payloadSales : Payload where
  query_text := some ("show me sales from 2023".data)
  env := none
  user_id := none

/-- A fixture request whose text matches no template. -/
def payloadInventory : Payload where
  query_text := some ("show me inventory".data)
  env := none
  user_id := none

/-- A fixture request with no `query_text` field at all. -/
def payloadEmpty : Payload where
  query_text := none
  env := none
  user_id := none

/-- The response `handle_query` produces for `payloadSales` on `drvOk`. -/
def respSales : Resp :=
  Resp.mk ("DEV".data) ("sales_2023".data) [(("year".data), (2023 : Int))] 2
    [[(("YEAR".data), (2023 : Int))], [(("YEAR".data), (2023 : Int))]]

/-- A catalog with two overlapping rules: the first template's rule is a
subset of the second's, so both match the spec's scenario query. -/
def catOverlap : Catalog :=
  [(("sales_any".data), QueryDef.mk ("SELECT * FROM SALES".data) (some [("sales".data)])),
   (("sales_2023".data), sales2023Def)]

/-- A catalog whose first entry has no `keywords` field at all. -/
def catWildcard : Catalog :=
  [(("catch_all".data), QueryDef.mk ("SELECT 1 FROM DUAL".data) none),
   (("sales_2023".data), sales2023Def)]

/-- `List.find?` returns the element at the first index satisfying the
predicate. -/
theorem find?_first_index {α : Type} (p : α → Bool) (l : List α) (i : Nat)
    (hi : i < l.length) (hm : p (l.get ⟨i, hi⟩) = true)
    (hf : ∀ j (hj : j < i), p (l.get ⟨j, Nat.lt_trans hj hi⟩) = false) :
    l.find? p = some (l.get ⟨i, hi⟩) := by
  induction l generalizing i with
  | nil => exact absurd hi (Nat.not_lt_zero i)
  | cons a l ih =>
    cases i with
    | zero => exact List.find?_cons_of_pos l hm
    | succ n =>
      have h0 : p a = false := hf 0 (Nat.succ_pos n)
      rw [List.find?_cons_of_neg l (by simp [h0])]
      exact ih n (Nat.lt_of_succ_lt_succ hi) hm (fun j hj => hf (j + 1) (Nat.succ_lt_succ hj))

/-- When the driver raises during `cursor.execute`, `execute_query`
re-raises and its trace records the open events but no close events. -/
theorem execute_query_run_error (drv : Driver) (envOk : Str → Bool) (queries : Catalog)
    (env_name query_name : Str) (params : Params) (qd : QueryDef) (e : ExecErr)
    (henv : envOk (pyLower env_name) = true)
    (hlk : lookupQuery queries query_name = some qd)
    (hconn : drv.connectOk = true)
    (hrun : drv.run qd.sql params = Except.error e) :
    execute_query drv envOk queries env_name query_name params =
      (Except.error (QErr.dbError e),
       [Event.connAttempt, Event.connOpen, Event.cursorOpen, Event.execAttempt]) := by
  unfold execute_query
  rw [henv, hlk, hconn]
  dsimp only
  rw [hrun]
  rfl

/-- Any run of `execute_query` that returns rows went down the single
success path, whose trace closes the cursor and the connection once each. -/
theorem execute_query_ok_trace (drv : Driver) (envOk : Str → Bool) (queries : Catalog)
    (env_name query_name : Str) (params : Params)
    (h : ∃ rows, (execute_query drv envOk queries env_name query_name params).1 = Except.ok rows) :
    (execute_query drv envOk queries env_name query_name params).2 =
      [Event.connAttempt, Event.connOpen, Event.cursorOpen, Event.execAttempt,
       Event.execOk, Event.cursorClose, Event.connClose] := by
  obtain ⟨rows, h⟩ := h
  by_cases henv : envOk (pyLower env_name) = true
  · rcases hlk : lookupQuery queries query_name with _ | qd
    · simp [execute_query, henv, hlk] at h
    · by_cases hconn : drv.connectOk = true
      · rcases hrun : drv.run qd.sql params with e | pr
        · simp [execute_query, henv, hlk, hconn, hrun] at h
        · rcases pr with ⟨cols, rows2⟩
          simp [execute_query, henv, hlk, hconn, hrun]
      · rw [Bool.not_eq_true] at hconn
        simp [execute_query, henv, hlk, hconn] at h
  · rw [Bool.not_eq_true] at henv
    simp [execute_query, henv] at h

/-- The response of `handle_query` is that of `resolve_and_run`; in
particular it does not depend on the session store. -/
theorem handle_query_fst (drv : Driver) (envOk : Str → Bool) (queries : Catalog)
    (payload : Payload) (store : MemoryStore) :
    (handle_query drv envOk queries payload store).1 =
      (resolve_and_run drv envOk queries payload).1 := by
  unfold handle_query
  rcases h : resolve_and_run drv envOk queries payload with ⟨res, tr⟩
  cases res <;> rfl

/-- A failed request leaves the session store untouched. -/
theorem handle_query_store_error (drv : Driver) (envOk : Str → Bool) (queries : Catalog)
    (payload : Payload) (store : MemoryStore) (e : HandleErr)
    (h : (resolve_and_run drv envOk queries payload).1 = Except.error e) :
    (handle_query drv envOk queries payload store).2.1 = store := by
  unfold handle_query
  rcases hr : resolve_and_run drv envOk queries payload with ⟨res, tr⟩
  rw [hr] at h
  cases res with
  | error e2 => rfl
  | ok r => exact absurd h (by simp)

/-- A successful request updates exactly the session-key entry with the
matched template name and extracted parameters. -/
theorem handle_query_store_ok (drv : Driver) (envOk : Str → Bool) (queries : Catalog)
    (payload : Payload) (store : MemoryStore) (r : Resp)
    (h : (resolve_and_run drv envOk queries payload).1 = Except.ok r) :
    (handle_query drv envOk queries payload store).2.1 =
      update_context store (sessionKey payload) r.matched_query r.params := by
  unfold handle_query
  rcases hr : resolve_and_run drv envOk queries payload with ⟨res, tr⟩
  rw [hr] at h
  cases res with
  | error e2 => exact absurd h (by simp)
  | ok r2 =>
    have h2 : r2 = r := by simpa using h
    subst h2
    rfl

/-- Any session id populated by a request sequence was either populated
before, or belongs to some request of the sequence that succeeded. -/
theorem runRequests_mem (drv : Driver) (envOk : Str → Bool) (queries : Catalog) :
    ∀ (reqs : List Payload) (store : MemoryStore) (id : Str),
      runRequests drv envOk queries reqs store id ≠ none →
      store id ≠ none ∨ ∃ p ∈ reqs, sessionKey p = id ∧
        ∃ r, (resolve_and_run drv envOk queries p).1 = Except.ok r := by
  intro reqs
  induction reqs with
  | nil => exact fun store id h => Or.inl h
  | cons p rest ih =>
    intro store id h
    have h2 : runRequests drv envOk queries rest
        (handle_query drv envOk queries p store).2.1 id ≠ none := h
    rcases ih _ id h2 with h3 | h3
    · rcases hres : (resolve_and_run drv envOk queries p).1 with e | r
      · left
        rwa [handle_query_store_error drv envOk queries p store e hres] at h3
      · rw [handle_query_store_ok drv envOk queries p store r hres] at h3
        by_cases hid : id = sessionKey p
        · right
          exact ⟨p, List.mem_cons_self p rest, hid.symm, r, hres⟩
        · left
          unfold update_context at h3
          simpa [fun hh => hid hh] using h3
    · right
      rcases h3 with ⟨p2, hp2, hk, r, hr⟩
      exact ⟨p2, List.mem_cons_of_mem p hp2, hk, r, hr⟩

/-- Inversion of a successful `resolve_and_run`: the payload carried a
query text, the text resolved, and the response fields come from the
resolved name, the extracted parameters and the executed rows. -/
theorem resolve_and_run_ok (drv : Driver) (envOk : Str → Bool) (queries : Catalog)
    (payload : Payload) (r : Resp)
    (h : (resolve_and_run drv envOk queries payload).1 = Except.ok r) :
    ∃ q query_name, payload.query_text = some q ∧
      match_intent q queries = some query_name ∧
      r.env = payload.env.getD ("DEV".data) ∧
      r.matched_query = query_name ∧
      r.params = extract_params q ∧
      r.records = r.results.length ∧
      (execute_query drv envOk queries (payload.env.getD ("DEV".data))
          query_name (extract_params q)).1 = Except.ok r.results := by
  unfold resolve_and_run at h
  rcases hq : payload.query_text with _ | q
  · rw [hq] at h
    exact absurd h (by simp)
  · rw [hq] at h
    dsimp only at h
    rcases hm : match_intent q queries with _ | query_name
    · rw [hm] at h
      exact absurd h (by simp)
    · rw [hm] at h
      dsimp only at h
      rcases hex : execute_query drv envOk queries (payload.env.getD ("DEV".data))
          query_name (extract_params q) with ⟨res, tr⟩
      rw [hex] at h
      cases res with
      | error e => exact absurd h (by simp)
      | ok results =>
        dsimp only at h
        have hr : r = Resp.mk (payload.env.getD ("DEV".data)) query_name
            (extract_params q) results.length results := by
          have h2 := h
          simp at h2
          exact h2.symm
        subst hr
        exact ⟨q, query_name, rfl, hm, rfl, rfl, rfl, rfl, by rw [hex]⟩

/-- C1 (amended).  After a successful `execute_query` the cursor and the
connection are each closed exactly once; but on the exit path where the
driver raises during statement execution, neither the cursor nor the
connection is closed — the exception propagates without release (the
source has no `finally`/`with` around the connection). -/
theorem c1_resource_release_amended (drv : Driver) (envOk : Str → Bool) (queries : Catalog)
    (env_name query_name : Str) (params : Params) :
    ((∃ rows, (execute_query drv envOk queries env_name query_name params).1 = Except.ok rows) →
      ((execute_query drv envOk queries env_name query_name params).2.count Event.cursorClose = 1 ∧
       (execute_query drv envOk queries env_name query_name params).2.count Event.connClose = 1)) ∧
    (∀ qd e, envOk (pyLower env_name) = true → lookupQuery queries query_name = some qd →
      drv.connectOk = true → drv.run qd.sql params = Except.error e →
      ((execute_query drv envOk queries env_name query_name params).2.count Event.cursorClose = 0 ∧
       (execute_query drv envOk queries env_name query_name params).2.count Event.connClose = 0)) := by
  constructor
  · intro h
    rw [execute_query_ok_trace drv envOk queries env_name query_name params h]
    exact ⟨rfl, rfl⟩
  · intro qd e henv hlk hconn hrun
    rw [execute_query_run_error drv envOk queries env_name query_name params qd e henv hlk hconn hrun]
    exact ⟨rfl, rfl⟩

/-- C1 (counterexample).  A fault-injecting backend whose `cursor.execute`
raises mid-statement: the connection is acquired on this exit path but
never closed, refuting release on every exit path. -/
theorem c1_release_counterexample :
    Event.connOpen ∈ (execute_query drvExecFail envOkDev cat0
        ("DEV".data) ("sales_2023".data) []).2 ∧
    Event.connClose ∉ (execute_query drvExecFail envOkDev cat0
        ("DEV".data) ("sales_2023".data) []).2 ∧
    Event.cursorClose ∉ (execute_query drvExecFail envOkDev cat0
        ("DEV".data) ("sales_2023".data) []).2 := by
  decide

/-- C1 (witness).  A successful run closes the connection exactly once,
and the fault-injected run closes it zero times. -/
theorem c1_resource_release_amended_w :
    ((execute_query drvOk envOkDev cat0 ("DEV".data) ("sales_2023".data) []).2.count
        Event.connClose = 1) ∧
    ((execute_query drvExecFail envOkDev cat0 ("DEV".data) ("sales_2023".data) []).2.count
        Event.connClose = 0) :=
  ⟨((c1_resource_release_amended drvOk envOkDev cat0 ("DEV".data) ("sales_2023".data) []).1
      ⟨[[(("YEAR".data), (2023 : Int))], [(("YEAR".data), (2023 : Int))]], rfl⟩).2,
   ((c1_resource_release_amended drvExecFail envOkDev cat0 ("DEV".data) ("sales_2023".data) []).2
      sales2023Def ExecErr.databaseError (by decide) (by decide) rfl rfl).2⟩

/-- C2 (confirmed).  The session store is updated only by requests that
resolved and executed successfully: a request whose outcome is an error
leaves the store unchanged, and starting from the empty store, any session
id holding an entry belongs to some request that produced a successful
response. -/
theorem c2_store_update_only_on_success (drv : Driver) (envOk : Str → Bool) (queries : Catalog) :
    (∀ payload store e, (handle_query drv envOk queries payload store).1 = Except.error e →
        (handle_query drv envOk queries payload store).2.1 = store) ∧
    (∀ reqs id, runRequests drv envOk queries reqs emptyStore id ≠ none →
        ∃ p ∈ reqs, sessionKey p = id ∧
          ∃ r, (handle_query drv envOk queries p emptyStore).1 = Except.ok r) := by
  constructor
  · intro payload store e h
    rw [handle_query_fst] at h
    exact handle_query_store_error drv envOk queries payload store e h
  · intro reqs id h
    rcases runRequests_mem drv envOk queries reqs emptyStore id h with h2 | h2
    · exact absurd rfl h2
    · rcases h2 with ⟨p, hp, hk, r, hr⟩
      refine ⟨p, hp, hk, r, ?_⟩
      rw [handle_query_fst]
      exact hr

/-- C2 (witness).  A request that fails resolution leaves the empty store
empty, and after the spec's successful scenario request the populated id
belongs to a succeeded request. -/
theorem c2_store_update_only_on_success_w :
    ((handle_query drvOk envOkDev cat0 payloadInventory emptyStore).2.1 = emptyStore) ∧
    (∃ p ∈ [payloadSales], sessionKey p = ("default".data) ∧
      ∃ r, (handle_query drvOk envOkDev cat0 p emptyStore).1 = Except.ok r) :=
  ⟨(c2_store_update_only_on_success drvOk envOkDev cat0).1 payloadInventory emptyStore
      HandleErr.http400 (by decide),
   (c2_store_update_only_on_success drvOk envOkDev cat0).2 [payloadSales] ("default".data)
      (by decide)⟩

/-- C3 (confirmed).  `match_intent` returns the first template, in catalog
load order, all of whose keywords occur as substrings of the lower-cased
query text: if index `i` matches and every earlier index does not, the
result is the name at `i`; in particular of two matching templates the
earlier-loaded one is selected. -/
theorem c3_first_match_wins (query_text : Str) (queries : Catalog) (i : Nat)
    (hi : i < queries.length)
    (hm : ruleMatches (pyLower query_text) (queries.get ⟨i, hi⟩).2 = true)
    (hf : ∀ j (hj : j < i),
      ruleMatches (pyLower query_text) (queries.get ⟨j, Nat.lt_trans hj hi⟩).2 = false) :
    match_intent query_text queries = some (queries.get ⟨i, hi⟩).1 := by
  have h := find?_first_index (fun nd => ruleMatches (pyLower query_text) nd.2) queries i hi hm hf
  show (queries.find? (fun nd => ruleMatches (pyLower query_text) nd.2)).map (fun nd => nd.1)
      = some (queries.get ⟨i, hi⟩).1
  rw [h]
  rfl

/-- C3 (witness).  Two overlapping rules both match the scenario query;
the one loaded first is selected. -/
theorem c3_first_match_wins_w :
    match_intent ("show me sales from 2023".data) catOverlap = some ("sales_any".data) :=
  c3_first_match_wins ("show me sales from 2023".data) catOverlap 0 (by decide) (by decide)
    (fun j hj => absurd hj (Nat.not_lt_zero j))

/-- C4 (confirmed).  `match_intent` is pure and total by construction
(a total function of its query text and catalog), and it returns no
result exactly when no catalog entry's rule is satisfied. -/
theorem c4_resolve_none_iff_no_match (query_text : Str) (queries : Catalog) :
    match_intent query_text queries = none ↔
      ∀ nd ∈ queries, ruleMatches (pyLower query_text) nd.2 = false := by
  show (queries.find? (fun nd => ruleMatches (pyLower query_text) nd.2)).map (fun nd => nd.1)
      = none ↔ _
  rw [Option.map_eq_none', List.find?_eq_none]
  simp only [Bool.not_eq_true]

/-- C4 (witness).  The scenario non-matching query yields no result. -/
theorem c4_resolve_none_iff_no_match_w :
    match_intent ("show me inventory".data) cat0 = none :=
  (c4_resolve_none_iff_no_match ("show me inventory".data) cat0).mpr (by decide)

/-- C5 (counterexample).  A successful request whose payload has no
session-id field records its context under the key `default`, and no
entry exists under `anonymous` — refuting the claimed sentinel. -/
theorem c5_session_key_counterexample :
    payloadSales.user_id = none ∧
    ((handle_query drvOk envOkDev cat0 payloadSales emptyStore).2.1 ("anonymous".data) = none) ∧
    ((handle_query drvOk envOkDev cat0 payloadSales emptyStore).2.1 ("default".data) ≠ none) := by
  refine ⟨rfl, by decide, by decide⟩

/-- C5 (amended).  When the session identifier field is absent, the
pipeline records the session context under the sentinel session id
`default` (the source's `payload.get("user_id", "default")`), not
`anonymous`. -/
theorem c5_session_key_amended (drv : Driver) (envOk : Str → Bool) (queries : Catalog)
    (payload : Payload) (store : MemoryStore) (r : Resp)
    (hu : payload.user_id = none)
    (h : (handle_query drv envOk queries payload store).1 = Except.ok r) :
    (handle_query drv envOk queries payload store).2.1 =
      update_context store ("default".data) r.matched_query r.params := by
  rw [handle_query_fst] at h
  have h2 := handle_query_store_ok drv envOk queries payload store r h
  unfold sessionKey at h2
  rw [hu, Option.getD_none] at h2
  exact h2

/-- C5 (witness).  The scenario request, which has no session-id field,
records under `default`. -/
theorem c5_session_key_amended_w :
    (handle_query drvOk envOkDev cat0 payloadSales emptyStore).2.1 =
      update_context emptyStore ("default".data) respSales.matched_query respSales.params :=
  c5_session_key_amended drvOk envOkDev cat0 payloadSales emptyStore respSales rfl (by decide)

/-- C6 (confirmed).  A request whose query text matches no template gets
the 400 `HTTPException`, the store is unchanged, and no database call is
attempted (the event trace is empty: execution was never invoked). -/
theorem c6_no_match_short_circuit (drv : Driver) (envOk : Str → Bool) (queries : Catalog)
    (payload : Payload) (store : MemoryStore) (q : Str)
    (hq : payload.query_text = some q)
    (hm : match_intent q queries = none) :
    handle_query drv envOk queries payload store =
      (Except.error HandleErr.http400, store, []) := by
  have hr : resolve_and_run drv envOk queries payload =
      (Except.error HandleErr.http400, []) := by
    unfold resolve_and_run
    rw [hq]
    dsimp only
    rw [hm]
  unfold handle_query
  rw [hr]

/-- C6 (witness).  The spec's scenario: `show me inventory` against the
sales catalog yields the 400 error with an empty trace. -/
theorem c6_no_match_short_circuit_w :
    handle_query drvOk envOkDev cat0 payloadInventory emptyStore =
      (Except.error HandleErr.http400, emptyStore, []) :=
  c6_no_match_short_circuit drvOk envOkDev cat0 payloadInventory emptyStore
    ("show me inventory".data) rfl (by decide)

/-- C7 (confirmed).  `record` followed by `read` on the same id returns
exactly the recorded template name and parameters, and a second `record`
to the same id fully overwrites the first entry (the entry is exactly the
new pair — no merging). -/
theorem c7_record_read_overwrite (store : MemoryStore) (id t t2 : Str) (p p2 : Params) :
    get_context (update_context store id t p) id = some (SessionContext.mk t p) ∧
    get_context (update_context (update_context store id t p) id t2 p2) id =
      some (SessionContext.mk t2 p2) := by
  constructor <;> simp [get_context, update_context]

/-- C8 (confirmed, spec-modelled driver).  With the binding-strict Oracle
driver, calling `execute_query` with a parameter set omitting a named
placeholder referenced by the template's SQL text fails with the
`MissingParameter` binding error and performs no execution (no `execOk`
event, no rows). -/
theorem c8_missing_parameter (runOk : Str → Params → List Str × List (List Int))
    (envOk : Str → Bool) (queries : Catalog) (env_name query_name : Str)
    (params : Params) (qd : QueryDef) (ph : Str)
    (henv : envOk (pyLower env_name) = true)
    (hlk : lookupQuery queries query_name = some qd)
    (hph : ph ∈ placeholdersOf qd.sql)
    (habs : ∀ kv ∈ params, kv.1 ≠ ph) :
    (execute_query (strictDriver runOk) envOk queries env_name query_name params).1 =
      Except.error (QErr.dbError ExecErr.missingParameter) ∧
    Event.execOk ∉
      (execute_query (strictDriver runOk) envOk queries env_name query_name params).2 := by
  have hany : params.any (fun kv => decide (kv.1 = ph)) = false := by
    by_contra hc
    rw [Bool.not_eq_false, List.any_eq_true] at hc
    rcases hc with ⟨kv, hkv, hkv2⟩
    exact habs kv hkv (of_decide_eq_true hkv2)
  have hall : (placeholdersOf qd.sql).all
      (fun ph2 => params.any (fun kv => decide (kv.1 = ph2))) = false := by
    by_contra hc
    rw [Bool.not_eq_false, List.all_eq_true] at hc
    have h3 := hc ph hph
    rw [hany] at h3
    exact absurd h3 (by decide)
  have hrun : (strictDriver runOk).run qd.sql params =
      Except.error ExecErr.missingParameter := by
    show (if (placeholdersOf qd.sql).all
        (fun ph2 => params.any (fun kv => decide (kv.1 = ph2))) then
        Except.ok (runOk qd.sql params) else Except.error ExecErr.missingParameter) = _
    rw [hall]
    rfl
  rw [execute_query_run_error (strictDriver runOk) envOk queries env_name query_name params
    qd ExecErr.missingParameter henv hlk rfl hrun]
  exact ⟨rfl, by decide⟩

/-- C8 (witness).  The scenario template references `:year`; executing it
with an empty parameter set fails with `MissingParameter` and never
executes. -/
theorem c8_missing_parameter_w :
    (execute_query (strictDriver (fun _ _ => ([], []))) envOkDev cat0
        ("DEV".data) ("sales_2023".data) []).1 =
      Except.error (QErr.dbError ExecErr.missingParameter) ∧
    Event.execOk ∉
      (execute_query (strictDriver (fun _ _ => ([], []))) envOkDev cat0
        ("DEV".data) ("sales_2023".data) []).2 :=
  c8_missing_parameter (fun _ _ => ([], [])) envOkDev cat0 ("DEV".data) ("sales_2023".data)
    [] sales2023Def ("year".data) (by decide) (by decide) (by decide) (by decide)

/-- C9 (confirmed).  A template whose `keywords` field is absent or empty
matches every query text vacuously (`all` over the empty list), so when it
is first in load order `match_intent` returns it for every input and no
later template can be selected. -/
theorem c9_vacuous_rule_first_wins (query_text name : Str) (qd : QueryDef) (rest : Catalog)
    (h : qd.keywords = none ∨ qd.keywords = some []) :
    match_intent query_text ((name, qd) :: rest) = some name := by
  have hm : ruleMatches (pyLower query_text) qd = true := by
    rcases h with h | h <;> simp [ruleMatches, h]
  show (((name, qd) :: rest).find?
      (fun nd => ruleMatches (pyLower query_text) nd.2)).map (fun nd => nd.1) = some name
  rw [List.find?_cons_of_pos rest hm]
  rfl

/-- C9 (witness).  A keyword-less template loaded first shadows the
`sales_2023` template even on an unrelated query. -/
theorem c9_vacuous_rule_first_wins_w :
    match_intent ("show me anything at all".data) catWildcard = some ("catch_all".data) :=
  c9_vacuous_rule_first_wins ("show me anything at all".data) ("catch_all".data)
    (QueryDef.mk ("SELECT 1 FROM DUAL".data) none)
    [(("sales_2023".data), sales2023Def)] (Or.inl rfl)

/-- C10 (confirmed).  For every successful request, the parameter set in
the response is exactly the constant pair year ↦ 2023 when the literal
substring `2023` occurs in the original, non-lowered query text, and empty
otherwise — independent of the catalog, the resolved template and any
other tokens of the text. -/
theorem c10_year_param_rule (drv : Driver) (envOk : Str → Bool) (queries : Catalog)
    (payload : Payload) (store : MemoryStore) (q : Str) (r : Resp)
    (hq : payload.query_text = some q)
    (h : (handle_query drv envOk queries payload store).1 = Except.ok r) :
    r.params = (if ("2023".data) <:+: q then [(("year".data), (2023 : Int))] else []) := by
  rw [handle_query_fst] at h
  rcases resolve_and_run_ok drv envOk queries payload r h with
    ⟨q2, qn, hq2, hm, henv2, hmq, hparams, hrec, hex⟩
  rw [hq] at hq2
  injection hq2 with hq3
  subst hq3
  rw [hparams]
  rfl

/-- C10 (witness).  The scenario request's response carries exactly the
year ↦ 2023 binding. -/
theorem c10_year_param_rule_w :
    respSales.params =
      (if ("2023".data) <:+: ("show me sales from 2023".data)
       then [(("year".data), (2023 : Int))] else []) :=
  c10_year_param_rule drvOk envOkDev cat0 payloadSales emptyStore
    ("show me sales from 2023".data) respSales rfl (by decide)
